import Mathlib

/-!
Verification of the watchlist bot (`bot.py`): persistence round-trip,
command semantics (add/remove/check), domain-token extraction, status
formatting, the HTTP lookup wrapper, and the periodic reporting pass.

The embedding is shallow: the persisted JSON document becomes a typed
record with optional keys, the HTTP collaborator becomes an abstract
outcome (success / non-2xx response / transport failure, with the parsed
body when the payload is valid JSON), and Python exceptions become the
`Except` monad, so that "never propagates" is a provable statement.
-/

namespace IndiwtfBot

/-! ## Data model -/

/-- In-memory state as `load_data` returns it: `{"chat_id": ..., "domains": [...]}`
with both keys present (after the `setdefault` calls). -/
structure BotState where
  chat_id : Option Int
  domains : List String
deriving Repr, DecidableEq

/-- A persisted JSON document: either key may be absent from the file
(`none` at the outer level). -/
structure PersistedDoc where
  chat_id : Option (Option Int)
  domains : Option (List String)
deriving Repr, DecidableEq

/-- Python `sorted(list(set(l)))` on string lists: the distinct elements in
ascending (code-point lexicographic) order. -/
def pySortedSet (l : List String) : List String :=
  l.dedup.insertionSort (fun a b => a ≤ b)

/-- `load_data`: a missing or unparseable file (`none`) yields the zero
state; otherwise the parsed document with `setdefault("chat_id", None)` and
`setdefault("domains", [])` applied. -/
def load_data : Option PersistedDoc → BotState
  | none => { chat_id := none, domains := [] }
  | some d => { chat_id := d.chat_id.getD none, domains := d.domains.getD [] }

/-- `save_data`: replaces `domains` with `sorted(list(set(domains)))` and
writes the whole state as one document (both keys present). -/
def save_data (s : BotState) : PersistedDoc :=
  { chat_id := some s.chat_id, domains := some (pySortedSet s.domains) }

/-- Python `s.upper()`, restricted to the ASCII range the bot's strings
live in: upper-case every character. -/
def pyToUpper (s : String) : String := String.mk (s.data.map Char.toUpper)

/-- Python `s.lower()`, restricted to ASCII: lower-case every character. -/
def pyToLower (s : String) : String := String.mk (s.data.map Char.toLower)

/-! ## Status lookup client (`check_domain_status`) -/

/-- A result dictionary from the status API. `error = some e` models the
key `"error"` being present (the `"error" in result` test); the other
fields model `result.get(...)` with `none` for an absent key. -/
structure ApiResult where
  error : Option String
  status : Option String
  ip : Option String
  domain : Option String
deriving Repr, DecidableEq

/-- One behavior of the HTTP collaborator for a single request.
`response ok body errMsg`: a response arrived; `ok` is whether the status
code was 2xx, `body` is the parsed JSON body (`none` when the body does not
parse), and `errMsg` is `str(e)` of whatever exception this outcome raises
(the HTTP status error or the JSON decode error). `transport errMsg`: no
response object exists at all (timeout, connection failure). -/
inductive HttpOutcome where
  | response (ok : Bool) (body : Option ApiResult) (errMsg : String)
  | transport (errMsg : String)
deriving Repr, DecidableEq

/-- The `try:` block of `check_domain_status`: `requests.get` (raises on
transport failure), `response.raise_for_status()` (raises on non-2xx),
`response.json()` (raises when the body does not parse). An `Except.error`
is a raised Python exception carrying `str(e)`. -/
def attempt_request : HttpOutcome → Except String ApiResult
  | HttpOutcome.transport e => Except.error e
  | HttpOutcome.response ok body errMsg =>
    if ok then
      match body with
      | some j => Except.ok j
      | none => Except.error errMsg
    else Except.error errMsg

/-- The `except Exception as e:` block: `try: return response.json()`
succeeds whenever a response object exists and its body parses (even for a
non-2xx response); the bare inner `except:` otherwise returns
`{"error": str(e)}` (this also covers the `NameError` when no response was
ever bound). -/
def error_recovery (h : HttpOutcome) (e : String) : ApiResult :=
  match h with
  | HttpOutcome.response _ (some j) _ => j
  | _ => { error := some e, status := none, ip := none, domain := none }

/-- The message returned when `INDIWTF_TOKEN` is unset. -/
def tokenMissingMsg : String := "Indiwtf API token is not configured."

/-- `check_domain_status`, parameterized by whether the API token is
configured and by the collaborator's behavior `h`. The `Except` layer is
the channel a Python exception would propagate on. -/
def check_domain_status (tok : Bool) (h : HttpOutcome) : Except String ApiResult :=
  if tok = false then
    Except.ok { error := some tokenMissingMsg, status := none, ip := none, domain := none }
  else
    match attempt_request h with
    | Except.ok r => Except.ok r
    | Except.error e => Except.ok (error_recovery h e)

/-- The dictionary `check_domain_status` returns (it always returns one;
see `check_domain_status_ok`). -/
def lookup_result (tok : Bool) (h : HttpOutcome) : ApiResult :=
  if tok = false then
    { error := some tokenMissingMsg, status := none, ip := none, domain := none }
  else
    match attempt_request h with
    | Except.ok r => r
    | Except.error e => error_recovery h e

theorem check_domain_status_ok (tok : Bool) (h : HttpOutcome) :
    check_domain_status tok h = Except.ok (lookup_result tok h) := by
  unfold check_domain_status lookup_result
  by_cases htok : tok = false
  · simp [htok]
  · simp only [htok, if_neg]
    cases attempt_request h <;> simp

/-! ## Result formatting (`format_status_message`) -/

/-- `format_status_message`: error results render as an error line with the
queried domain; otherwise `status` is upper-cased and compared to
`"BLOCKED"`, with `ip` defaulting to `"N/A"` and `domain` defaulting to the
queried domain. -/
def format_status_message (result : ApiResult) (domain_to_check : String) : String :=
  match result.error with
  | some e => "❌ **Error checking `" ++ domain_to_check ++ "`:**\n" ++ e
  | none =>
    let status := pyToUpper (result.status.getD "unknown")
    let ip := result.ip.getD "N/A"
    let domain := result.domain.getD domain_to_check
    let emoji := if status = "BLOCKED" then "🚫" else "✅"
    let status_text := if status = "BLOCKED" then "is *BLOCKED*" else "is *ALLOWED*"
    emoji ++ " `" ++ domain ++ "` " ++ status_text ++ " (IP: `" ++ ip ++ "`)"

/-- Display template for a lookup failure, naming the queried domain. -/
def errorLine (domain_queried msg : String) : String :=
  "❌ **Error checking `" ++ domain_queried ++ "`:**\n" ++ msg

/-- Display template for a blocked domain (the blocked marker `🚫`). -/
def blockedLine (domain ip : String) : String :=
  "🚫 `" ++ domain ++ "` is *BLOCKED* (IP: `" ++ ip ++ "`)"

/-- Display template for an allowed domain (the allowed marker `✅`). -/
def allowedLine (domain ip : String) : String :=
  "✅ `" ++ domain ++ "` is *ALLOWED* (IP: `" ++ ip ++ "`)"

/-! ## Token extraction (`get_domains_from_message`) -/

/-- The characters Python `str.split()` (no argument) treats as whitespace,
restricted to ASCII. -/
def pyIsSpace (c : Char) : Bool :=
  c = ' ' || c = '\t' || c = '\n' || c = '\x0b' || c = '\x0c' || c = '\r'

/-- Worker for Python `str.split()`: runs of whitespace separate tokens,
`acc` accumulates the current token reversed. -/
def splitWsAux : List Char → List Char → List (List Char)
  | [], acc => if acc.isEmpty then [] else [acc.reverse]
  | c :: cs, acc =>
    if pyIsSpace c then
      if acc.isEmpty then splitWsAux cs [] else acc.reverse :: splitWsAux cs []
    else splitWsAux cs (c :: acc)

/-- Python `s.split()`: split on arbitrary whitespace runs, no empty tokens. -/
def pySplitWs (s : String) : List String :=
  (splitWsAux s.data []).map fun cs => String.mk cs

/-- Python `s.split(maxsplit=1)`: skip leading whitespace, take the first
token, skip the separating whitespace run; the remainder (which keeps its
own trailing whitespace) is the second element when non-empty. -/
def pySplitFirst (s : String) : List String :=
  let cs := s.data.dropWhile pyIsSpace
  if cs.isEmpty then []
  else
    let tok := cs.takeWhile fun c => !pyIsSpace c
    let rest := (cs.dropWhile fun c => !pyIsSpace c).dropWhile pyIsSpace
    if rest.isEmpty then [String.mk tok] else [String.mk tok, String.mk rest]

/-- `get_domains_from_message`: `parts = text.split(maxsplit=1)`; fewer than
two parts means no arguments; otherwise `parts[1].split()`. -/
def get_domains_from_message (text : String) : List String :=
  match pySplitFirst text with
  | _ :: rest :: _ => pySplitWs rest
  | _ => []

/-! ## Add / remove command cores -/

/-- The set computation inside `add_command`, for already-loaded `stored`
domains and the extracted `tokens`. Returns the stored list after the
handler (saved only when something was new), `newly_added`, and
`already_exist`. -/
def add_core (stored tokens : List String) :
    List String × List String × List String :=
  let toAdd := (tokens.map pyToLower).dedup
  let newly := pySortedSet (toAdd.filter fun d => !decide (d ∈ stored))
  let already := pySortedSet (toAdd.filter fun d => decide (d ∈ stored))
  let stored' := if newly.isEmpty then stored else pySortedSet (stored ++ newly)
  (stored', newly, already)

/-- The set computation inside `remove_command`: returns the stored list
after the handler (filtered and saved only when something matched),
`successfully_removed`, and `not_found`. -/
def remove_core (stored tokens : List String) :
    List String × List String × List String :=
  let toRemove := (tokens.map pyToLower).dedup
  let removed := pySortedSet (toRemove.filter fun d => decide (d ∈ stored))
  let notFound := pySortedSet (toRemove.filter fun d => !decide (d ∈ stored))
  let stored' :=
    if removed.isEmpty then stored
    else pySortedSet (stored.filter fun d => !decide (d ∈ removed))
  (stored', removed, notFound)

/-! ## Command handlers -/

/-- The literal usage hint of `/add`. -/
def addUsage : String :=
  "Usage: `/add domain1.com domain2.com ...`\nYou can also paste a list of domains on new lines after the command."

/-- The literal usage hint of `/remove`. -/
def removeUsage : String :=
  "Usage: `/remove domain1.com domain2.com ...`\nYou can also paste a list of domains on new lines after the command."

/-- The literal usage hint of `/check`. -/
def checkUsage : String := "Usage: `/check domain.com`"

/-- `add_command`: returns the state after the handler and the replies it
sends, in order. -/
def add_command (text : String) (s : BotState) : BotState × List String :=
  let toks := get_domains_from_message text
  if toks.isEmpty then (s, [addUsage])
  else
    let res := add_core s.domains toks
    let p1 : List String :=
      if res.2.1.isEmpty then []
      else ["✅ Added *" ++ toString res.2.1.length ++ "* new domains."]
    let p2 : List String :=
      if res.2.2.isEmpty then []
      else ["☑️ Skipped *" ++ toString res.2.2.length ++ "* domains (already on list)."]
    ({ s with domains := res.1 },
      [String.intercalate "\n" ("**📝 Bulk Add Report**\n" :: (p1 ++ p2))])

/-- `remove_command`: returns the state after the handler and the replies. -/
def remove_command (text : String) (s : BotState) : BotState × List String :=
  let toks := get_domains_from_message text
  if toks.isEmpty then (s, [removeUsage])
  else
    let res := remove_core s.domains toks
    let p1 : List String :=
      if res.2.1.isEmpty then []
      else ["✅ Removed *" ++ toString res.2.1.length ++ "* domains."]
    let p2 : List String :=
      if res.2.2.isEmpty then []
      else ["❓ Could not remove *" ++ toString res.2.2.length ++ "* domains (not on list)."]
    ({ s with domains := res.1 },
      [String.intercalate "\n" ("**🗑️ Bulk Remove Report**\n" :: (p1 ++ p2))])

/-- `check_command`, parameterized by the token flag and the collaborator's
behavior `f` per queried domain. The `Except` layer is exception
propagation out of the handler; the payload is the state after the handler
and the replies sent. -/
def check_command (text : String) (s : BotState) (tok : Bool)
    (f : String → HttpOutcome) : Except String (BotState × List String) :=
  match get_domains_from_message text with
  | [] => Except.ok (s, [checkUsage])
  | d0 :: _ =>
    let key := pyToLower d0
    match check_domain_status tok (f key) with
    | Except.error e => Except.error e
    | Except.ok r =>
      Except.ok (s, ["🔍 Checking `" ++ key ++ "`...", format_status_message r key])

/-! ## Periodic reporter (`periodic_check`) -/

/-- The header line of the periodic report. -/
def reportHeader : String := "🔔 **Periodic Domain Status Report**\n"

/-- The sequential lookup loop of `periodic_check`: one formatted line per
domain, in list order; a raised exception would abort the rest. -/
def report_lines (tok : Bool) (f : String → HttpOutcome) :
    List String → Except String (List String)
  | [] => Except.ok []
  | d :: ds =>
    match check_domain_status tok (f d) with
    | Except.error e => Except.error e
    | Except.ok r =>
      match report_lines tok f ds with
      | Except.error e => Except.error e
      | Except.ok rest => Except.ok (format_status_message r d :: rest)

/-- `periodic_check`: skips (sends nothing, `none`) when `chat_id` is
falsy (`None` or `0`) or `domains` is empty; otherwise sends exactly one
message `(chat, text)`. -/
def periodic_check (s : BotState) (tok : Bool) (f : String → HttpOutcome) :
    Except String (Option (Int × String)) :=
  match s.chat_id with
  | none => Except.ok none
  | some cid =>
    if cid = 0 then Except.ok none
    else if s.domains.isEmpty then Except.ok none
    else
      match report_lines tok f s.domains with
      | Except.error e => Except.error e
      | Except.ok lines =>
        Except.ok (some (cid, String.intercalate "\n" (reportHeader :: lines)))

/-! ## Auxiliary notions used by the statements -/

/-- The parsed JSON body carried by an outcome, when a response arrived at
all and its body parsed. -/
def parsed_body : HttpOutcome → Option ApiResult
  | HttpOutcome.response _ b _ => b
  | HttpOutcome.transport _ => none

/-- The outcomes on which the `try:` block of `check_domain_status` raises:
transport failures, non-2xx responses, and responses whose body does not
parse as JSON. -/
def lookup_failed : HttpOutcome → Bool
  | HttpOutcome.transport _ => true
  | HttpOutcome.response ok body _ => !ok || body.isNone

/-- The `str(e)` of a failing outcome's exception. -/
def failure_msg : HttpOutcome → String
  | HttpOutcome.transport e => e
  | HttpOutcome.response _ _ e => e

/-- Replace every newline character by a space. -/
def nlToSpace (s : String) : String :=
  String.mk (s.data.map fun c => if c = '\n' then ' ' else c)

/-- A collaborator that times out on every request. -/
def constTimeout : String → HttpOutcome :=
  fun _ => HttpOutcome.transport "timed out"

/-- A collaborator where `a.com` resolves as allowed and every other domain
times out. -/
def mixedOutcomes : String → HttpOutcome :=
  fun d =>
    if d = "a.com" then
      HttpOutcome.response true
        (some { error := none, status := some "ALLOWED", ip := some "1.1.1.1",
                domain := some "a.com" }) ""
    else HttpOutcome.transport "timed out"

/-! ## Helper lemmas -/

theorem mem_pySortedSet {x : String} {l : List String} :
    x ∈ pySortedSet l ↔ x ∈ l := by
  unfold pySortedSet
  rw [(List.perm_insertionSort _ _).mem_iff, List.mem_dedup]

theorem pySortedSet_nil : pySortedSet [] = [] := rfl

theorem pySortedSet_singleton (a : String) : pySortedSet [a] = [a] := rfl

theorem add_core_single (stored : List String) (t : String) :
    add_core stored [t] =
      if pyToLower t ∈ stored then (stored, [], [pyToLower t])
      else (pySortedSet (stored ++ [pyToLower t]), [pyToLower t], []) := by
  unfold add_core
  by_cases hm : pyToLower t ∈ stored <;>
    simp [hm, List.filter, pySortedSet_nil, pySortedSet_singleton]

theorem report_lines_eq (tok : Bool) (f : String → HttpOutcome) (l : List String) :
    report_lines tok f l =
      Except.ok (l.map fun d => format_status_message (lookup_result tok (f d)) d) := by
  induction l with
  | nil => rfl
  | cons d ds ih => simp [report_lines, check_domain_status_ok, ih]

/-! ## Claims -/

/-- Claim C1: for every watchlist state, `save_data` followed by
`load_data` yields a domains list that is set-equal to the saved domains,
has no duplicates, and is sorted ascending lexicographically. -/
theorem claim_C1 (s : BotState) :
    (∀ x, x ∈ (load_data (some (save_data s))).domains ↔ x ∈ s.domains) ∧
    (load_data (some (save_data s))).domains.Nodup ∧
    (load_data (some (save_data s))).domains.Sorted (fun a b => a ≤ b) := by
  have hd : (load_data (some (save_data s))).domains = pySortedSet s.domains := rfl
  rw [hd]
  refine ⟨fun x => mem_pySortedSet, ?_, ?_⟩
  · exact ((List.perm_insertionSort _ _).nodup_iff).mpr (List.nodup_dedup _)
  · exact List.sorted_insertionSort _ _

/-- Claim C2: `format_status_message` renders an error payload as the error
line embedding the queried domain and message; otherwise it upper-cases the
status and renders the blocked line exactly when that equals `"BLOCKED"`,
every other (or missing) status rendering as allowed, with the API's echoed
domain (default: the queried domain) and IP (default: `"N/A"`). -/
theorem claim_C2 (r : ApiResult) (d : String) :
    (∀ e, r.error = some e → format_status_message r d = errorLine d e) ∧
    (r.error = none →
      ((pyToUpper (r.status.getD "unknown") = "BLOCKED" →
          format_status_message r d = blockedLine (r.domain.getD d) (r.ip.getD "N/A")) ∧
        (pyToUpper (r.status.getD "unknown") ≠ "BLOCKED" →
          format_status_message r d = allowedLine (r.domain.getD d) (r.ip.getD "N/A")))) := by
  refine ⟨?_, ?_⟩
  · intro e he
    simp [format_status_message, he, errorLine]
  · intro he
    refine ⟨?_, ?_⟩ <;> intro hs <;>
      · simp only [format_status_message, he, hs, if_pos, if_neg, blockedLine, allowedLine]
        apply String.ext
        simp [hs]

/-- Witness for C2 at three concrete results: an error payload, a blocked
status in mixed case, and a payload with every field missing. -/
theorem claim_C2_witness :
    format_status_message
        { error := some "boom", status := none, ip := none, domain := none } "q.com" =
      errorLine "q.com" "boom" ∧
    format_status_message
        { error := none, status := some "Blocked", ip := some "1.2.3.4",
          domain := some "x.com" } "q.com" =
      blockedLine "x.com" "1.2.3.4" ∧
    format_status_message
        { error := none, status := none, ip := none, domain := none } "q.com" =
      allowedLine "q.com" "N/A" :=
  ⟨(claim_C2 _ "q.com").1 "boom" rfl,
    ((claim_C2 _ "q.com").2 rfl).1 (by decide),
    ((claim_C2 _ "q.com").2 rfl).2 (by decide)⟩

/-- Counterexample to C3 as stated: a non-2xx (500) response whose body
parses as JSON is returned as that body, a record with no `error` key, not
an `{error: message}` record. -/
theorem claim_C3_counterexample :
    check_domain_status true
        (HttpOutcome.response false
          (some { error := none, status := some "BLOCKED", ip := some "1.2.3.4",
                  domain := some "x.com" })
          "500 Server Error") =
      Except.ok { error := none, status := some "BLOCKED", ip := some "1.2.3.4",
                  domain := some "x.com" } := rfl

/-- Claim C3 (amended): every failing lookup (transport error, non-2xx
response, unparsable body) is caught, never propagated; it is converted to
`{error: message}` except that a response whose body parses as JSON is
returned as that parsed body, which need not be an error record. -/
theorem claim_C3 (h : HttpOutcome) (hf : lookup_failed h = true) :
    check_domain_status true h =
      Except.ok
        (match parsed_body h with
         | some j => j
         | none =>
           { error := some (failure_msg h), status := none, ip := none, domain := none }) := by
  cases h with
  | transport e => rfl
  | response ok body e =>
    cases ok <;> cases body <;>
      simp_all [lookup_failed, check_domain_status, attempt_request, error_recovery,
        parsed_body, failure_msg]

/-- Witness for C3 at a concrete timeout. -/
theorem claim_C3_witness :
    check_domain_status true (HttpOutcome.transport "timed out") =
      Except.ok { error := some "timed out", status := none, ip := none, domain := none } :=
  claim_C3 (HttpOutcome.transport "timed out") rfl

/-- Claim C10: `check_domain_status` is total — for every token
configuration and every collaborator behavior it returns a dictionary
(never an exception), and that dictionary either carries an error key or is
the response body itself. -/
theorem claim_C10 (tok : Bool) (h : HttpOutcome) :
    ∃ r : ApiResult, check_domain_status tok h = Except.ok r ∧
      (r.error.isSome = true ∨ parsed_body h = some r) := by
  refine ⟨lookup_result tok h, check_domain_status_ok tok h, ?_⟩
  cases tok with
  | false => simp [lookup_result, tokenMissingMsg]
  | true =>
    cases h with
    | transport e => simp [lookup_result, attempt_request, error_recovery]
    | response ok body e =>
      cases ok <;> cases body <;>
        simp [lookup_result, attempt_request, error_recovery, parsed_body]

theorem pyIsSpace_nlSub (c : Char) :
    pyIsSpace (if c = '\n' then ' ' else c) = pyIsSpace c := by
  by_cases hc : c = '\n'
  · subst hc; decide
  · simp [hc]

theorem nlSub_of_not_space {c : Char} (h : pyIsSpace c = false) :
    (if c = '\n' then ' ' else c) = c := by
  by_cases hc : c = '\n'
  · subst hc; exact absurd h (by decide)
  · simp [hc]

theorem splitWsAux_nlSub (l : List Char) (acc : List Char) :
    splitWsAux (l.map fun c => if c = '\n' then ' ' else c) acc = splitWsAux l acc := by
  induction l generalizing acc with
  | nil => rfl
  | cons c cs ih =>
    simp only [List.map_cons, splitWsAux, pyIsSpace_nlSub]
    by_cases hc : pyIsSpace c = true
    · simp [hc, ih]
    · rw [nlSub_of_not_space (by simpa using hc)]
      simp [hc, ih]

theorem dropWhile_space_nlSub (l : List Char) :
    (l.map fun c => if c = '\n' then ' ' else c).dropWhile pyIsSpace =
      (l.dropWhile pyIsSpace).map fun c => if c = '\n' then ' ' else c := by
  induction l with
  | nil => rfl
  | cons c cs ih =>
    simp only [List.map_cons, List.dropWhile_cons, pyIsSpace_nlSub]
    by_cases hc : pyIsSpace c = true <;> simp [hc, ih]

theorem dropWhile_nonspace_nlSub (l : List Char) :
    (l.map fun c => if c = '\n' then ' ' else c).dropWhile (fun c => !pyIsSpace c) =
      (l.dropWhile fun c => !pyIsSpace c).map fun c => if c = '\n' then ' ' else c := by
  induction l with
  | nil => rfl
  | cons c cs ih =>
    simp only [List.map_cons, List.dropWhile_cons, pyIsSpace_nlSub]
    by_cases hc : pyIsSpace c = true <;> simp [hc, ih]

/-- `get_domains_from_message` reduced to one character-level expression:
drop leading whitespace, drop the first token, drop the separating
whitespace, then whitespace-split what is left. -/
theorem get_domains_eq_chars (s : String) :
    get_domains_from_message s =
      (splitWsAux
          (((s.data.dropWhile pyIsSpace).dropWhile fun c => !pyIsSpace c).dropWhile
            pyIsSpace) []).map (fun cs => String.mk cs) := by
  unfold get_domains_from_message pySplitFirst
  by_cases h1 : (s.data.dropWhile pyIsSpace).isEmpty
  · rw [List.isEmpty_iff] at h1
    simp [h1, splitWsAux]
  · by_cases h2 :
      (((s.data.dropWhile pyIsSpace).dropWhile fun c => !pyIsSpace c).dropWhile
          pyIsSpace).isEmpty
    · rw [List.isEmpty_iff] at h2
      simp only [List.isEmpty_iff, h1, if_neg, h2, List.isEmpty_nil, if_pos]
      simp [h1, h2, splitWsAux]
    · simp [h1, h2, pySplitWs]

/-- Claim C6: domain extraction splits off the command at the first
whitespace run and splits the remainder on arbitrary whitespace, so spaces
and newlines are interchangeable separators; in particular the multi-line
`/add` example extracts exactly its three domains. -/
theorem claim_C6 :
    get_domains_from_message "/add a.com\nb.com c.com" = ["a.com", "b.com", "c.com"] ∧
    ∀ s : String, get_domains_from_message (nlToSpace s) = get_domains_from_message s := by
  refine ⟨rfl, fun s => ?_⟩
  rw [get_domains_eq_chars, get_domains_eq_chars]
  show (splitWsAux (((((s.data.map fun c => if c = '\n' then ' ' else c)).dropWhile
      pyIsSpace).dropWhile fun c => !pyIsSpace c).dropWhile pyIsSpace) []).map
      (fun cs => String.mk cs) = _
  rw [dropWhile_space_nlSub, dropWhile_nonspace_nlSub, dropWhile_space_nlSub,
    splitWsAux_nlSub]

/-- Claim C4: adding a domain that is already stored (states satisfying the
no-duplicates invariant) leaves the state unchanged with exactly one stored
entry for it, and the second add reports it under `already_exist`, never
under `newly_added`. -/
theorem claim_C4 (text t : String) (s : BotState)
    (hx : get_domains_from_message text = [t])
    (hnd : s.domains.Nodup) (hmem : pyToLower t ∈ s.domains) :
    (add_command text s).1 = s ∧
    add_core s.domains [t] = (s.domains, [], [pyToLower t]) ∧
    s.domains.count (pyToLower t) = 1 := by
  have hcore : add_core s.domains [t] = (s.domains, [], [pyToLower t]) := by
    unfold add_core
    simp [hmem, List.filter, pySortedSet_nil, pySortedSet_singleton]
  refine ⟨?_, hcore, List.count_eq_one_of_mem hnd hmem⟩
  unfold add_command
  rw [hx]
  simp [hcore]

/-- Witness for C4: re-adding `"A.com"` to a watchlist already holding
`"a.com"`. -/
theorem claim_C4_witness :
    (add_command "/add A.com" { chat_id := none, domains := ["a.com", "b.com"] }).1 =
      { chat_id := none, domains := ["a.com", "b.com"] } ∧
    add_core ["a.com", "b.com"] ["A.com"] = (["a.com", "b.com"], [], ["a.com"]) ∧
    (["a.com", "b.com"] : List String).count "a.com" = 1 :=
  claim_C4 "/add A.com" "A.com" { chat_id := none, domains := ["a.com", "b.com"] }
    (by rfl) (by decide) (by decide)

/-- Claim C5: removing a domain that is not stored reports it under
`not_found`, reports nothing removed, and leaves the stored list (and the
whole state) unchanged. -/
theorem claim_C5 (text t : String) (s : BotState)
    (hx : get_domains_from_message text = [t])
    (hni : pyToLower t ∉ s.domains) :
    (remove_command text s).1 = s ∧
    remove_core s.domains [t] = (s.domains, [], [pyToLower t]) := by
  have hcore : remove_core s.domains [t] = (s.domains, [], [pyToLower t]) := by
    unfold remove_core
    simp [hni, List.filter, pySortedSet_nil, pySortedSet_singleton]
  refine ⟨?_, hcore⟩
  unfold remove_command
  rw [hx]
  simp [hcore]

/-- Witness for C5: removing `"c.com"` from a watchlist that does not hold
it. -/
theorem claim_C5_witness :
    (remove_command "/remove c.com" { chat_id := some 5, domains := ["a.com"] }).1 =
      { chat_id := some 5, domains := ["a.com"] } ∧
    remove_core ["a.com"] ["c.com"] = (["a.com"], [], ["c.com"]) :=
  claim_C5 "/remove c.com" "c.com" { chat_id := some 5, domains := ["a.com"] }
    (by rfl) (by decide)

/-- Claim C7: an `/add`, `/remove` or `/check` whose text has no remainder
after the command token replies with the literal usage hint and performs no
mutation of the state. -/
theorem claim_C7 (text : String) (s : BotState) (tok : Bool)
    (f : String → HttpOutcome)
    (hx : get_domains_from_message text = []) :
    add_command text s = (s, [addUsage]) ∧
    remove_command text s = (s, [removeUsage]) ∧
    check_command text s tok f = Except.ok (s, [checkUsage]) := by
  unfold add_command remove_command check_command
  rw [hx]
  simp

/-- Witness for C7 at the bare command `"/add"`. -/
theorem claim_C7_witness :
    add_command "/add" { chat_id := some 5, domains := ["a.com"] } =
      ({ chat_id := some 5, domains := ["a.com"] }, [addUsage]) ∧
    remove_command "/add" { chat_id := some 5, domains := ["a.com"] } =
      ({ chat_id := some 5, domains := ["a.com"] }, [removeUsage]) ∧
    check_command "/add" { chat_id := some 5, domains := ["a.com"] } true constTimeout =
      Except.ok ({ chat_id := some 5, domains := ["a.com"] }, [checkUsage]) :=
  claim_C7 "/add" { chat_id := some 5, domains := ["a.com"] } true constTimeout (by rfl)

/-- Counterexample to C8 as stated: the stored chat identifier `0` is set,
and the domain list is non-empty, yet the pass sends nothing, because the
`not chat_id` truthiness test treats `0` like an unset chat. -/
theorem claim_C8_counterexample :
    periodic_check { chat_id := some 0, domains := ["a.com"] } true constTimeout =
      Except.ok none := rfl

/-- Claim C8 (amended): for every state whose chat identifier is set and
non-zero and whose domain list is non-empty, the pass sends exactly one
message to that chat — the header plus one formatted line per stored domain
in stored (canonical ascending) order — never propagating a lookup failure;
a domain whose lookup fails in transport contributes exactly its own error
line. -/
theorem claim_C8 (s : BotState) (cid : Int) (tok : Bool)
    (f : String → HttpOutcome)
    (hc : s.chat_id = some cid) (h0 : cid ≠ 0) (hne : s.domains ≠ []) :
    periodic_check s tok f =
      Except.ok (some (cid, String.intercalate "\n"
        (reportHeader :: s.domains.map fun d =>
          format_status_message (lookup_result tok (f d)) d))) ∧
    (∀ d e, f d = HttpOutcome.transport e →
      format_status_message (lookup_result true (f d)) d = errorLine d e) := by
  constructor
  · unfold periodic_check
    rw [hc]
    simp [h0, List.isEmpty_iff, hne, report_lines_eq]
  · intro d e hde
    rw [hde]
    rfl

/-- Witness for C8: chat `7`, domains `["a.com", "b.com"]`, where `a.com`
resolves as allowed and `b.com` times out. -/
theorem claim_C8_witness :
    periodic_check { chat_id := some 7, domains := ["a.com", "b.com"] } true
        mixedOutcomes =
      Except.ok (some (7, String.intercalate "\n"
        (reportHeader :: (["a.com", "b.com"] : List String).map fun d =>
          format_status_message (lookup_result true (mixedOutcomes d)) d))) ∧
    format_status_message (lookup_result true (mixedOutcomes "b.com")) "b.com" =
      errorLine "b.com" "timed out" :=
  ⟨(claim_C8 { chat_id := some 7, domains := ["a.com", "b.com"] } 7 true
      mixedOutcomes rfl (by decide) (by decide)).1,
    (claim_C8 { chat_id := some 7, domains := ["a.com", "b.com"] } 7 true
      mixedOutcomes rfl (by decide) (by decide)).2 "b.com" "timed out" rfl⟩

/-- Claim C9: the lowercase form of an input token is what add stores, what
add and remove compare against the stored set, and what `/check` uses as
its lookup key. -/
theorem claim_C9 (stored : List String) (t : String) (ts : List String)
    (text : String) (s : BotState) (tok : Bool) (f : String → HttpOutcome)
    (hx : get_domains_from_message text = t :: ts) :
    pyToLower t ∈ (add_core stored [t]).1 ∧
    (∀ x ∈ (add_core stored [t]).1, x ∈ stored ∨ x = pyToLower t) ∧
    (add_core stored [t]).2.2 = (if pyToLower t ∈ stored then [pyToLower t] else []) ∧
    (remove_core stored [t]).2.1 = (if pyToLower t ∈ stored then [pyToLower t] else []) ∧
    check_command text s tok f =
      Except.ok (s, ["🔍 Checking `" ++ pyToLower t ++ "`...",
        format_status_message (lookup_result tok (f (pyToLower t))) (pyToLower t)]) := by
  refine ⟨?_, ?_, ?_, ?_, ?_⟩
  · rw [add_core_single]
    by_cases hm : pyToLower t ∈ stored
    · simp [hm]
    · simp [hm, mem_pySortedSet]
  · intro x hxmem
    rw [add_core_single] at hxmem
    by_cases hm : pyToLower t ∈ stored
    · rw [if_pos hm] at hxmem
      exact Or.inl hxmem
    · rw [if_neg hm] at hxmem
      rcases List.mem_append.mp (mem_pySortedSet.mp hxmem) with h | h
      · exact Or.inl h
      · exact Or.inr (List.mem_singleton.mp h)
  · rw [add_core_single]
    by_cases hm : pyToLower t ∈ stored <;> simp [hm]
  · by_cases hm : pyToLower t ∈ stored <;>
      · unfold remove_core
        simp [hm, List.filter, pySortedSet_nil, pySortedSet_singleton]
  · unfold check_command
    rw [hx]
    simp [check_domain_status_ok]

/-- Witness for C9 at the token `"Example.COM"` against a watchlist holding
`"example.com"`. -/
theorem claim_C9_witness :
    ("example.com" : String) ∈ (add_core ["example.com"] ["Example.COM"]).1 ∧
    (∀ x ∈ (add_core ["example.com"] ["Example.COM"]).1,
      x ∈ (["example.com"] : List String) ∨ x = "example.com") ∧
    (add_core ["example.com"] ["Example.COM"]).2.2 =
      (if ("example.com" : String) ∈ (["example.com"] : List String)
        then ["example.com"] else []) ∧
    (remove_core ["example.com"] ["Example.COM"]).2.1 =
      (if ("example.com" : String) ∈ (["example.com"] : List String)
        then ["example.com"] else []) ∧
    check_command "/check Example.COM" { chat_id := none, domains := [] } true
        constTimeout =
      Except.ok ({ chat_id := none, domains := [] },
        ["🔍 Checking `" ++ "example.com" ++ "`...",
          format_status_message (lookup_result true (constTimeout "example.com"))
            "example.com"]) :=
  claim_C9 ["example.com"] "Example.COM" [] "/check Example.COM"
    { chat_id := none, domains := [] } true constTimeout (by rfl)

end IndiwtfBot
